import Mathlib

/-!
# Verification of the tg-docker-command-bot command registry and dispatcher

A shallow embedding of `run.py`: the dataclass argument schemas and their
`__post_init__` coercions, the `ArgsHandler` dispatch wrapper, the
`reply_fabric` formatter (with the Markdown-V2 escaping it calls), the
registration globals built by `reg_command` / `reg_handler`, and the
handler bodies as traces of messaging / container-runtime effects.
-/

namespace TgDockerBot

/-- A Python runtime value as it can appear in a bound dataclass field:
the raw tokens are strings, declared defaults are ints / bools / `None`,
and `__post_init__` may replace a field by a coerced value. -/
inductive PyVal where
  | int : Int → PyVal
  | bool : Bool → PyVal
  | str : String → PyVal
  | pynone : PyVal
deriving DecidableEq, Repr

/-- Digit run of a Python integer literal body: digits, with single
underscores allowed only between digits (`int("1_2") = 12`,
`int("1__2")` and `int("1_")` raise). `acc` holds the value parsed so far. -/
def pyDigitsCore (acc : Nat) : List Char → Option Nat
  | [] => some acc
  | '_' :: c :: cs =>
    if c.isDigit then pyDigitsCore (acc * 10 + (c.toNat - 48)) cs else none
  | ['_'] => none
  | c :: cs =>
    if c.isDigit then pyDigitsCore (acc * 10 + (c.toNat - 48)) cs else none

/-- A nonempty digit run must start with a digit. -/
def pyDigitsFirst : List Char → Option Nat
  | c :: cs => if c.isDigit then pyDigitsCore (c.toNat - 48) cs else none
  | [] => none

/-- Models Python `int(s)` on a whitespace-free token (the bot's tokens come
from whitespace splitting, so stripping is vacuous): an optional sign
followed by a nonempty underscore-grouped digit run; anything else raises
`ValueError`, modelled as `none`. -/
def pyIntOfString (s : String) : Option Int :=
  match s.toList with
  | '+' :: cs => (pyDigitsFirst cs).map Int.ofNat
  | '-' :: cs => (pyDigitsFirst cs).map (fun n => -(n : Int))
  | cs => (pyDigitsFirst cs).map Int.ofNat

/-- Python `int(x)` as applied by the `__post_init__` coercions: ints pass
through, booleans widen, strings parse, `None` raises. -/
def pyIntOf : PyVal → Option Int
  | .int i => some i
  | .bool b => some (if b then 1 else 0)
  | .str s => pyIntOfString s
  | .pynone => none

/-- ASCII lowering of one character, the fragment of `str.lower` relevant
to the `"t"` / `"f"` vocabulary (no non-ASCII character lowercases to
either letter). -/
def pyLowerChar (c : Char) : Char :=
  if 65 ≤ c.toNat ∧ c.toNat ≤ 90 then Char.ofNat (c.toNat + 32) else c

/-- Python `s.lower()` on the tokens the bot handles. -/
def pyLower (s : String) : String :=
  String.mk (s.toList.map pyLowerChar)

/-- The `str_to_bool` dictionary of `ListArgs.__post_init__`; a missing key
is a `KeyError`, modelled as `none`. -/
def str_to_bool (s : String) : Option Bool :=
  if s = "t" then some true else if s = "f" then some false else none

/-- dataclass `LogArgs`: `container_name: str`, `tail_number: int = 5`. -/
structure LogArgs where
  container_name : PyVal
  tail_number : PyVal
deriving DecidableEq, Repr

/-- `LogArgs.__post_init__`: `self.tail_number = int(self.tail_number)`. -/
def LogArgs.post (a : LogArgs) : Option LogArgs :=
  (pyIntOf a.tail_number).map (fun i => { a with tail_number := .int i })

/-- `LogArgs(*tokens)`: positional dataclass construction (wrong arity is a
`TypeError`, i.e. `none`) followed by `__post_init__`. -/
def LogArgs.ofTokens : List String → Option LogArgs
  | [n] => LogArgs.post ⟨.str n, .int 5⟩
  | [n, t] => LogArgs.post ⟨.str n, .str t⟩
  | _ => none

/-- dataclass `ListArgs`: `limit: int = 15`, `all: bool = False`. -/
structure ListArgs where
  limit : PyVal
  all : PyVal
deriving DecidableEq, Repr

/-- `ListArgs.__post_init__`: returns untouched when `all` is still the
boolean default, otherwise maps `all.lower()` through `str_to_bool`.
Note `limit` is never coerced. -/
def ListArgs.post (a : ListArgs) : Option ListArgs :=
  match a.all with
  | .bool _ => some a
  | .str s =>
    match str_to_bool (pyLower s) with
    | some b => some { a with all := .bool b }
    | none => none
  | _ => none

/-- `ListArgs(*tokens)`. -/
def ListArgs.ofTokens : List String → Option ListArgs
  | [] => ListArgs.post ⟨.int 15, .bool false⟩
  | [l] => ListArgs.post ⟨.str l, .bool false⟩
  | [l, al] => ListArgs.post ⟨.str l, .str al⟩
  | _ => none

/-- dataclass `StartStopArgs`: `container_name: str`, `timeout: int = 10`. -/
structure StartStopArgs where
  container_name : PyVal
  timeout : PyVal
deriving DecidableEq, Repr

/-- `StartStopArgs.__post_init__`: `self.timeout = int(self.timeout)`. -/
def StartStopArgs.post (a : StartStopArgs) : Option StartStopArgs :=
  (pyIntOf a.timeout).map (fun i => { a with timeout := .int i })

/-- `StartStopArgs(*tokens)`. -/
def StartStopArgs.ofTokens : List String → Option StartStopArgs
  | [n] => StartStopArgs.post ⟨.str n, .int 10⟩
  | [n, t] => StartStopArgs.post ⟨.str n, .str t⟩
  | _ => none

/-- dataclass `EchoArgs`: `text: str = None`; no `__post_init__`. -/
structure EchoArgs where
  text : PyVal
deriving DecidableEq, Repr

/-- `EchoArgs(*tokens)`. -/
def EchoArgs.ofTokens : List String → Option EchoArgs
  | [] => some ⟨.pynone⟩
  | [t] => some ⟨.str t⟩
  | _ => none

/-- The characters `telegram.helpers.escape_markdown` escapes for
`version=2`: backslash, underscore, star, brackets, parentheses, tilde,
backtick, angle, hash, plus, minus, equals, pipe, braces, dot, bang. -/
def mdv2Reserved : List Char := "\\_*[]()~`>#+-=|\x7b\x7d.!".toList

/-- One escaped character: a reserved character gains a backslash in front. -/
def escChar (c : Char) : List Char :=
  if c ∈ mdv2Reserved then ['\\', c] else [c]

/-- `escape_markdown(text, version=2)` over the character list. -/
def escapeList : List Char → List Char
  | [] => []
  | c :: cs => escChar c ++ escapeList cs

/-- `telegram.helpers.escape_markdown(text, version=2)` as called by
`reply_fabric`. -/
def escape_markdown (s : String) : String :=
  String.mk (escapeList s.toList)

/-- Mechanical reversal of the escaping: a backslash is dropped and the
character it protects is kept. -/
def unescapeList : List Char → List Char
  | [] => []
  | [c] => [c]
  | c :: d :: cs =>
    if c = '\\' then d :: unescapeList cs else c :: unescapeList (d :: cs)

/-- Mechanical reversal of `escape_markdown`. -/
def unescape_markdown (s : String) : String :=
  String.mk (unescapeList s.toList)

/-- `reply_fabric(command, text)`: header quoting the command, blank
separator, escaped body, one or two newlines depending on whether `text`
already ends in one, and the `_replied_` footer. The timestamp the source
takes from `datetime.now(timezone.utc).isoformat(sep=' ',
timespec='seconds')` enters as the parameter `now`. -/
def reply_fabric (command text now : String) : String :=
  let header := "_command_ `" ++ command ++ "`"
  let body := "\n\n" ++ escape_markdown text
    ++ (if text.endsWith "\n" then "\n" else "\n\n")
  let footer := "_replied_ `" ++ now ++ "`"
  header ++ body ++ footer

/-- An observable effect of handling one inbound command: an outbound
`send_message`, or a call on the container-runtime collaborator.
Payloads are the bound `PyVal`s exactly as the handler passes them. -/
inductive Event where
  | sent : String → Event
  | dockerListCall : PyVal → PyVal → Event
  | dockerGet : PyVal → Event
  | dockerLogsCall : PyVal → PyVal → Event
  | dockerRestartCall : PyVal → PyVal → Event
  | dockerStopCall : PyVal → PyVal → Event
  | dockerStartCall : PyVal → Event
deriving DecidableEq, Repr

/-- Whether an event is a call on the container-runtime collaborator. -/
def Event.isDockerCall : Event → Bool
  | .sent _ => false
  | _ => true

/-- Whether an event is an outbound message send. -/
def Event.isSent : Event → Bool
  | .sent _ => true
  | _ => false

/-- The trace of one invocation: the events the handler performs
synchronously before returning, and the events of the task it hands to
`context.application.create_task`, which run after the synchronous part
of the same invocation. -/
structure InvocationResult where
  sync : List Event
  deferred : List Event
deriving DecidableEq, Repr

/-- The full per-invocation event order: synchronous events first, then
the deferred task's. -/
def InvocationResult.trace (r : InvocationResult) : List Event :=
  r.sync ++ r.deferred

/-- The sum of the four argument-schema values, so the per-command binders
share one result type. -/
inductive ArgsVal where
  | logA : LogArgs → ArgsVal
  | listA : ListArgs → ArgsVal
  | startStopA : StartStopArgs → ArgsVal
  | echoA : EchoArgs → ArgsVal
deriving DecidableEq, Repr

/-- `ArgsHandler._wrapp_callback`: try to construct `args_class(*context.args)`;
on any exception log, send `'Wrong arguments of {args_class}'` and return;
otherwise run the wrapped handler on the bound value. -/
def wrapped_callback {α : Type} (argsClassRepr : String)
    (bind : List String → Option α)
    (callback : α → InvocationResult)
    (tokens : List String) : InvocationResult :=
  match bind tokens with
  | none => { sync := [.sent ("Wrong arguments of " ++ argsClassRepr)], deferred := [] }
  | some a => callback a

/-- The commands registered with an `ArgsHandler` (those that declare an
argument schema). -/
inductive CmdId where
  | echo | listC | logs | restart | stop | start
deriving DecidableEq, Repr

/-- The argument schema each command declares. -/
def cmdBind : CmdId → List String → Option ArgsVal
  | .echo, ts => (EchoArgs.ofTokens ts).map ArgsVal.echoA
  | .listC, ts => (ListArgs.ofTokens ts).map ArgsVal.listA
  | .logs, ts => (LogArgs.ofTokens ts).map ArgsVal.logA
  | .restart, ts => (StartStopArgs.ofTokens ts).map ArgsVal.startStopA
  | .stop, ts => (StartStopArgs.ofTokens ts).map ArgsVal.startStopA
  | .start, ts => (StartStopArgs.ofTokens ts).map ArgsVal.startStopA

/-- The command name as registered with `reg_command`. -/
def cmdName : CmdId → String
  | .echo => "echo"
  | .listC => "list"
  | .logs => "logs"
  | .restart => "restart"
  | .stop => "stop"
  | .start => "start"

/-- The Python repr of each command's `args_class`, as an f-string renders
it in the error reply. -/
def cmdArgsRepr : CmdId → String
  | .echo => "<class '__main__.EchoArgs'>"
  | .listC => "<class '__main__.ListArgs'>"
  | .logs => "<class '__main__.LogArgs'>"
  | .restart => "<class '__main__.StartStopArgs'>"
  | .stop => "<class '__main__.StartStopArgs'>"
  | .start => "<class '__main__.StartStopArgs'>"

/-- The number of fields of each command's dataclass schema. -/
def cmdNumFields : CmdId → Nat
  | .echo => 1
  | _ => 2

/-- Handler `list_containers`: calls `docker_client.containers.list(all=args.all,
limit=args.limit)` with the bound values as they stand, folds the returned
`(name, status)` pairs into the body, and sends one reply. -/
def list_containers (resp : List (String × String)) (msg now : String)
    (args : ListArgs) : InvocationResult :=
  let text := resp.foldl (fun acc c => acc ++ c.1 ++ " " ++ c.2 ++ "\n") ""
  { sync := [.dockerListCall args.all args.limit,
             .sent (reply_fabric msg text now)],
    deferred := [] }

/-- Handler `get_container_logs`: resolves the container (a missing one
raises out of the handler, `none`), requests `logs(tail=args.tail_number)`
and sends the decoded text as one reply. -/
def get_container_logs (containerExists : Bool) (logsText : String)
    (msg now : String) (args : LogArgs) : Option InvocationResult :=
  if containerExists then
    some { sync := [.dockerGet args.container_name,
                    .dockerLogsCall args.container_name args.tail_number,
                    .sent (reply_fabric msg logsText now)],
           deferred := [] }
  else none

/-- Handler `restart_container`: resolves the container, replies
"restarting..." synchronously, then hands
`c.restart(timeout=args.timeout)` plus the "restarted." reply to
`create_task`. A missing container raises before any reply (`none`). -/
def restart_container (containerExists : Bool) (msg now : String)
    (args : StartStopArgs) : Option InvocationResult :=
  if containerExists then
    some { sync := [.dockerGet args.container_name,
                    .sent (reply_fabric msg "restarting..." now)],
           deferred := [.dockerRestartCall args.container_name args.timeout,
                        .sent (reply_fabric msg "restarted." now)] }
  else none

/-- Handler `stop_container`, same two-phase shape as `restart_container`. -/
def stop_container (containerExists : Bool) (msg now : String)
    (args : StartStopArgs) : Option InvocationResult :=
  if containerExists then
    some { sync := [.dockerGet args.container_name,
                    .sent (reply_fabric msg "stopping..." now)],
           deferred := [.dockerStopCall args.container_name args.timeout,
                        .sent (reply_fabric msg "stopped." now)] }
  else none

/-- Handler `start_container`: resolves, starts synchronously, one reply. -/
def start_container (containerExists : Bool) (msg now : String)
    (args : StartStopArgs) : Option InvocationResult :=
  if containerExists then
    some { sync := [.dockerGet args.container_name,
                    .dockerStartCall args.container_name,
                    .sent (reply_fabric msg "started" now)],
           deferred := [] }
  else none

/-- A `telegram.BotCommand`: name and description. -/
structure BotCommandM where
  command : String
  description : String
deriving DecidableEq, Repr

/-- The two `BotCommandScope`s the source registers commands under. -/
inductive ScopeM where
  | defaultScope | chatScope
deriving DecidableEq, Repr

/-- The module-level registration state: the `SCOPES` lists (per scope, in
registration order) and the `HANDLERS` entries, each recorded as the
command name with its handler class name. -/
structure RegState where
  scopesDefault : List BotCommandM
  scopesChat : List BotCommandM
  handlers : List (String × String)
deriving DecidableEq, Repr

/-- The empty module state before any decorator runs. -/
def RegState.empty : RegState := ⟨[], [], []⟩

/-- Append one `BotCommand` to one scope's list. -/
def RegState.appendScope (st : RegState) (sc : ScopeM) (cmd : BotCommandM) : RegState :=
  match sc with
  | .defaultScope => { st with scopesDefault := st.scopesDefault ++ [cmd] }
  | .chatScope => { st with scopesChat := st.scopesChat ++ [cmd] }

/-- `reg_command(name, description, args, scopes)`: extends the description
with the schema's field names when a schema is given, builds the
`BotCommand` and appends it to every requested scope list. It performs no
duplicate check and cannot fail. -/
def reg_command (st : RegState) (name description : String)
    (argsFieldNames : Option String) (scopes : List ScopeM) : RegState :=
  let description :=
    match argsFieldNames with
    | some fns => description ++ " " ++ "Params: " ++ fns
    | none => description
  let cmd : BotCommandM := ⟨name, description⟩
  scopes.foldl (fun s sc => s.appendScope sc cmd) st

/-- `reg_handler(handler_class)`: builds the handler for the command set by
the surrounding `reg_command` and appends it to `HANDLERS`. It performs no
duplicate check and cannot fail. -/
def reg_handler (st : RegState) (name handlerClass : String) : RegState :=
  { st with handlers := st.handlers ++ [(name, handlerClass)] }

/-- One decorated handler definition: the `reg_command` call runs first
(appending to `SCOPES`), then `reg_handler`'s decorator (appending to
`HANDLERS`). -/
def registerCommand (st : RegState) (name description : String)
    (argsFieldNames : Option String) (scopes : List ScopeM)
    (handlerClass : String) : RegState :=
  reg_handler (reg_command st name description argsFieldNames scopes) name handlerClass

/-! ## Helper lemmas -/

lemma wrapped_callback_of_bind_none {α : Type} (r : String)
    (bind : List String → Option α) (cb : α → InvocationResult)
    (ts : List String) (h : bind ts = none) :
    wrapped_callback r bind cb ts =
      ⟨[.sent ("Wrong arguments of " ++ r)], []⟩ := by
  unfold wrapped_callback
  rw [h]

lemma EchoArgs_ofTokens_long (ts : List String) (h : 1 < ts.length) :
    EchoArgs.ofTokens ts = none := by
  match ts with
  | [] => simp at h
  | [a] => simp at h
  | a :: b :: cs => rfl

lemma LogArgs_ofTokens_long (ts : List String) (h : 2 < ts.length) :
    LogArgs.ofTokens ts = none := by
  match ts with
  | [] => simp at h
  | [a] => simp at h
  | [a, b] => simp at h
  | a :: b :: c :: cs => rfl

lemma ListArgs_ofTokens_long (ts : List String) (h : 2 < ts.length) :
    ListArgs.ofTokens ts = none := by
  match ts with
  | [] => simp at h
  | [a] => simp at h
  | [a, b] => simp at h
  | a :: b :: c :: cs => rfl

lemma StartStopArgs_ofTokens_long (ts : List String) (h : 2 < ts.length) :
    StartStopArgs.ofTokens ts = none := by
  match ts with
  | [] => simp at h
  | [a] => simp at h
  | [a, b] => simp at h
  | a :: b :: c :: cs => rfl

lemma pyLowerChar_eq_t (c : Char) (h : pyLowerChar c = 't') :
    c = 't' ∨ c = 'T' := by
  unfold pyLowerChar at h
  split at h
  · next hc =>
    obtain ⟨h1, h2⟩ := hc
    have hce : Char.ofNat c.toNat = c := Char.ofNat_toNat c
    obtain ⟨n, hn⟩ : ∃ n, c.toNat = n := ⟨_, rfl⟩
    rw [hn] at h h1 h2 hce
    interval_cases n <;>
      first
        | exact absurd h (by decide)
        | exact Or.inr (hce ▸ (by decide))
  · exact Or.inl h

lemma pyLowerChar_eq_f (c : Char) (h : pyLowerChar c = 'f') :
    c = 'f' ∨ c = 'F' := by
  unfold pyLowerChar at h
  split at h
  · next hc =>
    obtain ⟨h1, h2⟩ := hc
    have hce : Char.ofNat c.toNat = c := Char.ofNat_toNat c
    obtain ⟨n, hn⟩ : ∃ n, c.toNat = n := ⟨_, rfl⟩
    rw [hn] at h h1 h2 hce
    interval_cases n <;>
      first
        | exact absurd h (by decide)
        | exact Or.inr (hce ▸ (by decide))
  · exact Or.inl h

lemma pyLower_eq_t (a : String) (h : pyLower a = "t") : a = "t" ∨ a = "T" := by
  have hdata : a.toList.map pyLowerChar = ['t'] := congrArg String.toList h
  have heta : String.mk a.toList = a := rfl
  match hl : a.toList with
  | [] => rw [hl] at hdata; simp at hdata
  | [c] =>
    rw [hl] at hdata
    simp at hdata
    rcases pyLowerChar_eq_t c hdata with hc | hc <;>
      [left; right] <;> rw [← heta, hl, hc]
  | c :: d :: cs => rw [hl] at hdata; simp at hdata

lemma pyLower_eq_f (a : String) (h : pyLower a = "f") : a = "f" ∨ a = "F" := by
  have hdata : a.toList.map pyLowerChar = ['f'] := congrArg String.toList h
  have heta : String.mk a.toList = a := rfl
  match hl : a.toList with
  | [] => rw [hl] at hdata; simp at hdata
  | [c] =>
    rw [hl] at hdata
    simp at hdata
    rcases pyLowerChar_eq_f c hdata with hc | hc <;>
      [left; right] <;> rw [← heta, hl, hc]
  | c :: d :: cs => rw [hl] at hdata; simp at hdata

lemma unescapeList_escapeList (cs : List Char) :
    unescapeList (escapeList cs) = cs := by
  induction cs with
  | nil => rfl
  | cons c cs ih =>
    rw [escapeList]
    by_cases hc : c ∈ mdv2Reserved
    · rw [escChar, if_pos hc]
      show unescapeList ('\\' :: c :: escapeList cs) = c :: cs
      rw [unescapeList, if_pos rfl, ih]
    · rw [escChar, if_neg hc, List.singleton_append]
      have hcb : c ≠ '\\' := by
        intro hb
        exact hc (hb ▸ (by decide))
      cases hcs : escapeList cs with
      | nil =>
        rw [hcs] at ih
        rw [show unescapeList [] = [] from rfl] at ih
        rw [← ih]
        rfl
      | cons d ds =>
        rw [unescapeList, if_neg hcb, ← hcs, ih]

/-! ## Claim theorems -/

/-- C1: for every command that declares an argument schema, if constructing
the typed arguments from the raw tokens fails for any reason, the dispatch
sends exactly one error reply, the command's handler is never invoked (the
result is the same for every handler), and no container-runtime call is
made; no partially bound argument value is ever passed on. -/
theorem bindFailure_single_error_no_handler (i : CmdId) (ts : List String)
    (cb : ArgsVal → InvocationResult) (h : cmdBind i ts = none) :
    wrapped_callback (cmdArgsRepr i) (cmdBind i) cb ts =
      ⟨[.sent ("Wrong arguments of " ++ cmdArgsRepr i)], []⟩ ∧
    (wrapped_callback (cmdArgsRepr i) (cmdBind i) cb ts).trace.countP Event.isSent = 1 ∧
    (wrapped_callback (cmdArgsRepr i) (cmdBind i) cb ts).trace.countP Event.isDockerCall = 0 := by
  have he := wrapped_callback_of_bind_none (cmdArgsRepr i) (cmdBind i) cb ts h
  refine ⟨he, ?_, ?_⟩ <;> rw [he] <;> rfl

/-- Witness for C1: `/restart` with no tokens fails to bind and dispatch
produces exactly the single error reply. -/
theorem bindFailure_single_error_no_handler_witness :
    cmdBind CmdId.restart [] = none ∧
    (wrapped_callback (cmdArgsRepr CmdId.restart) (cmdBind CmdId.restart)
        (fun _ => ⟨[], []⟩) [] =
      ⟨[.sent ("Wrong arguments of " ++ cmdArgsRepr CmdId.restart)], []⟩ ∧
    (wrapped_callback (cmdArgsRepr CmdId.restart) (cmdBind CmdId.restart)
        (fun _ => ⟨[], []⟩) []).trace.countP Event.isSent = 1 ∧
    (wrapped_callback (cmdArgsRepr CmdId.restart) (cmdBind CmdId.restart)
        (fun _ => ⟨[], []⟩) []).trace.countP Event.isDockerCall = 0) :=
  ⟨rfl, bindFailure_single_error_no_handler CmdId.restart [] (fun _ => ⟨[], []⟩) rfl⟩

/-- C2, failing input: the `limit` field of `/list` is declared `limit: int`
but `ListArgs.__post_init__` never coerces it, so the non-numeric token
`"abc"` binds without a `BindError` and the bound value stays a string;
`tail_number` and `timeout` by contrast are coerced as the claim states. -/
theorem list_limit_uncoerced_at_failing_input :
    ListArgs.ofTokens ["abc"] = some ⟨.str "abc", .bool false⟩ ∧
    ListArgs.ofTokens ["20"] = some ⟨.str "20", .bool false⟩ ∧
    LogArgs.ofTokens ["c", "abc"] = none ∧
    StartStopArgs.ofTokens ["c", "abc"] = none ∧
    LogArgs.ofTokens ["c", "7"] = some ⟨.str "c", .int 7⟩ ∧
    StartStopArgs.ofTokens ["c", "7"] = some ⟨.str "c", .int 7⟩ := by
  refine ⟨rfl, rfl, ?_, ?_, ?_, ?_⟩ <;> decide

/-- C3, counterexample: registering the command name "list" twice is
silently accepted — both `BotCommand`s sit in the chat scope's menu list,
both handlers are registered, and no start-up failure occurs. -/
theorem duplicate_registration_accepted_cex :
    ((registerCommand (registerCommand RegState.empty "list" "List containers."
        (some "limit, all") [ScopeM.chatScope] "ArgsHandler") "list"
        "List containers." (some "limit, all") [ScopeM.chatScope]
        "ArgsHandler").scopesChat.map BotCommandM.command = ["list", "list"]) ∧
    ((registerCommand (registerCommand RegState.empty "list" "List containers."
        (some "limit, all") [ScopeM.chatScope] "ArgsHandler") "list"
        "List containers." (some "limit, all") [ScopeM.chatScope]
        "ArgsHandler").handlers = [("list", "ArgsHandler"), ("list", "ArgsHandler")]) := by
  exact ⟨rfl, rfl⟩

/-- C3, amended: `reg_command` and `reg_handler` perform no duplicate
check; registering the same name twice from any state appends the command
to the scope menu twice and registers two handlers, and start-up proceeds
(registration is total, it has no failure outcome). -/
theorem duplicate_registration_appends_both (st : RegState)
    (name description fns handlerClass : String) :
    ((registerCommand (registerCommand st name description (some fns)
        [ScopeM.chatScope] handlerClass) name description (some fns)
        [ScopeM.chatScope] handlerClass).scopesChat.countP
          (fun c => c.command == name)
      = st.scopesChat.countP (fun c => c.command == name) + 2) ∧
    ((registerCommand (registerCommand st name description (some fns)
        [ScopeM.chatScope] handlerClass) name description (some fns)
        [ScopeM.chatScope] handlerClass).handlers.length
      = st.handlers.length + 2) := by
  unfold registerCommand reg_command reg_handler RegState.appendScope
  simp [List.countP_append, List.countP_cons]

/-- C4: `/list` with no tokens binds to the declared defaults
`limit = 15`, `all = False`, the handler is invoked with them, and the
container-runtime list call carries exactly `all=False, limit=15`; more
generally each trailing omitted token takes its field's declared default
(`tail_number = 5`, `timeout = 10`, `text = None`). -/
theorem list_defaults_and_runtime_call (resp : List (String × String))
    (msg now name : String) :
    ListArgs.ofTokens [] = some ⟨.int 15, .bool false⟩ ∧
    wrapped_callback "<class '__main__.ListArgs'>" ListArgs.ofTokens
        (list_containers resp msg now) []
      = list_containers resp msg now ⟨.int 15, .bool false⟩ ∧
    (list_containers resp msg now ⟨.int 15, .bool false⟩).sync.head?
      = some (.dockerListCall (.bool false) (.int 15)) ∧
    LogArgs.ofTokens [name] = some ⟨.str name, .int 5⟩ ∧
    StartStopArgs.ofTokens [name] = some ⟨.str name, .int 10⟩ ∧
    EchoArgs.ofTokens [] = some ⟨.pynone⟩ :=
  ⟨rfl, rfl, rfl, rfl, rfl, rfl⟩

/-- C5: a `/restart` invocation that binds and resolves its container
sends the "restarting..." reply synchronously, hands the
`restart(timeout=...)` call and the "restarted." reply to the deferred
task, and in the invocation's trace the "restarting..." reply precedes
the restart call, which precedes "restarted."; an omitted timeout token
binds to the default 10. -/
theorem restart_two_phase_order (ts : List String) (a : StartStopArgs)
    (msg now : String) (h : StartStopArgs.ofTokens ts = some a) :
    restart_container true msg now a =
      some { sync := [.dockerGet a.container_name,
                      .sent (reply_fabric msg "restarting..." now)],
             deferred := [.dockerRestartCall a.container_name a.timeout,
                          .sent (reply_fabric msg "restarted." now)] } ∧
    (restart_container true msg now a).map InvocationResult.trace =
      some [.dockerGet a.container_name,
            .sent (reply_fabric msg "restarting..." now),
            .dockerRestartCall a.container_name a.timeout,
            .sent (reply_fabric msg "restarted." now)] ∧
    (∀ name, ts = [name] → a.timeout = .int 10) := by
  refine ⟨rfl, rfl, ?_⟩
  intro name hts
  subst hts
  rw [show StartStopArgs.ofTokens [name] =
        some ⟨.str name, .int 10⟩ from rfl] at h
  injection h with h
  rw [← h]

/-- Witness for C5: `/restart web` with the timeout omitted. -/
theorem restart_two_phase_order_witness :
    StartStopArgs.ofTokens ["web"] = some ⟨.str "web", .int 10⟩ ∧
    (restart_container true "/restart web" "2026-10-12 00:00:00+00:00"
        ⟨.str "web", .int 10⟩ =
      some { sync := [.dockerGet (.str "web"),
                      .sent (reply_fabric "/restart web" "restarting..."
                        "2026-10-12 00:00:00+00:00")],
             deferred := [.dockerRestartCall (.str "web") (.int 10),
                          .sent (reply_fabric "/restart web" "restarted."
                            "2026-10-12 00:00:00+00:00")] } ∧
    (restart_container true "/restart web" "2026-10-12 00:00:00+00:00"
        ⟨.str "web", .int 10⟩).map InvocationResult.trace =
      some [.dockerGet (.str "web"),
            .sent (reply_fabric "/restart web" "restarting..."
              "2026-10-12 00:00:00+00:00"),
            .dockerRestartCall (.str "web") (.int 10),
            .sent (reply_fabric "/restart web" "restarted."
              "2026-10-12 00:00:00+00:00")] ∧
    (∀ name, ["web"] = [name] → PyVal.int 10 = PyVal.int 10)) :=
  ⟨rfl, by
    have := restart_two_phase_order ["web"] ⟨.str "web", .int 10⟩
      "/restart web" "2026-10-12 00:00:00+00:00" rfl
    exact ⟨this.1, this.2.1, fun name _ => rfl⟩⟩

/-- C6: the formatted reply is the header quoting the command text in
inline-code style, a blank separator, the markup-escaped body, then one
newline before the footer when the body already ends in a line break and
two otherwise, and finally the footer line carrying the timestamp. -/
theorem reply_fabric_structure (command text now : String) :
    reply_fabric command text now =
      ("_command_ `" ++ command ++ "`") ++ "\n\n" ++ escape_markdown text
      ++ (if text.endsWith "\n" then "\n" else "\n\n")
      ++ ("_replied_ `" ++ now ++ "`") := by
  unfold reply_fabric
  cases h : text.endsWith "\n"
  · simp only [h, Bool.false_eq_true, if_false, String.append_assoc]
  · simp only [h, if_true, String.append_assoc]

/-- C7, counterexample: when binding fails the reply text names the
argument class, not the command — for `/restart` with no tokens it reads
`Wrong arguments of <class '__main__.StartStopArgs'>`, which is not
`wrong arguments for restart`. -/
theorem bind_error_reply_names_class_cex :
    wrapped_callback (cmdArgsRepr CmdId.restart) (cmdBind CmdId.restart)
        (fun _ => ⟨[], []⟩) [] =
      ⟨[.sent "Wrong arguments of <class '__main__.StartStopArgs'>"], []⟩ ∧
    cmdName CmdId.restart = "restart" ∧
    ("Wrong arguments of <class '__main__.StartStopArgs'>" : String) ≠
      "wrong arguments for restart" := by
  refine ⟨rfl, rfl, ?_⟩
  decide

/-- C7, amended: whenever binding fails for a command, the error reply sent
to the chat is the text `Wrong arguments of <args_class repr>`, naming the
argument class whose construction failed rather than the command name. -/
theorem bind_error_reply_text (i : CmdId) (ts : List String)
    (cb : ArgsVal → InvocationResult) (h : cmdBind i ts = none) :
    wrapped_callback (cmdArgsRepr i) (cmdBind i) cb ts =
      ⟨[.sent ("Wrong arguments of " ++ cmdArgsRepr i)], []⟩ :=
  wrapped_callback_of_bind_none (cmdArgsRepr i) (cmdBind i) cb ts h

/-- Witness for the amended C7: `/list 1 x` fails on the boolean token and
the reply names `ListArgs`. -/
theorem bind_error_reply_text_witness :
    cmdBind CmdId.listC ["1", "x"] = none ∧
    wrapped_callback (cmdArgsRepr CmdId.listC) (cmdBind CmdId.listC)
        (fun _ => ⟨[], []⟩) ["1", "x"] =
      ⟨[.sent ("Wrong arguments of " ++ cmdArgsRepr CmdId.listC)], []⟩ :=
  ⟨by decide, bind_error_reply_text CmdId.listC ["1", "x"]
    (fun _ => ⟨[], []⟩) (by decide)⟩

/-- C8: a supplied token for the boolean `all` field of `/list` is accepted
exactly when it is `t` or `f` in either letter case, `t`/`T` binding
`True` and `f`/`F` binding `False`; every other token is a bind failure. -/
theorem list_all_token_vocabulary (l a : String) :
    ((ListArgs.ofTokens [l, a]).isSome ↔
      (a = "t" ∨ a = "T" ∨ a = "f" ∨ a = "F")) ∧
    (a = "t" ∨ a = "T" → ListArgs.ofTokens [l, a] = some ⟨.str l, .bool true⟩) ∧
    (a = "f" ∨ a = "F" → ListArgs.ofTokens [l, a] = some ⟨.str l, .bool false⟩) := by
  have ht : pyLower "t" = "t" := by decide
  have hT : pyLower "T" = "t" := by decide
  have hf : pyLower "f" = "f" := by decide
  have hF : pyLower "F" = "f" := by decide
  refine ⟨⟨?_, ?_⟩, ?_, ?_⟩
  · intro hs
    rw [show ListArgs.ofTokens [l, a] = ListArgs.post ⟨.str l, .str a⟩ from rfl,
      ListArgs.post] at hs
    simp only at hs
    cases hb : str_to_bool (pyLower a) with
    | none => rw [hb] at hs; simp at hs
    | some b =>
      unfold str_to_bool at hb
      by_cases h1 : pyLower a = "t"
      · rcases pyLower_eq_t a h1 with h | h
        · exact Or.inl h
        · exact Or.inr (Or.inl h)
      · by_cases h2 : pyLower a = "f"
        · rcases pyLower_eq_f a h2 with h | h
          · exact Or.inr (Or.inr (Or.inl h))
          · exact Or.inr (Or.inr (Or.inr h))
        · rw [if_neg h1, if_neg h2] at hb
          exact absurd hb (by simp)
  · rintro (rfl | rfl | rfl | rfl) <;>
      simp [ListArgs.ofTokens, ListArgs.post, ht, hT, hf, hF, str_to_bool]
  · rintro (rfl | rfl) <;>
      simp [ListArgs.ofTokens, ListArgs.post, ht, hT, str_to_bool]
  · rintro (rfl | rfl) <;>
      simp [ListArgs.ofTokens, ListArgs.post, hf, hF, str_to_bool]

/-- Witness for C8: the upper-case token `T` binds `all = True` for
`/list 20 T`, and `isSome` matches the vocabulary at this input. -/
theorem list_all_token_vocabulary_witness :
    ListArgs.ofTokens ["20", "T"] = some ⟨.str "20", .bool true⟩ ∧
    ((ListArgs.ofTokens ["20", "x"]).isSome ↔
      (("x" : String) = "t" ∨ ("x" : String) = "T" ∨ ("x" : String) = "f" ∨
        ("x" : String) = "F")) :=
  ⟨(list_all_token_vocabulary "20" "T").2.1 (Or.inr rfl),
    (list_all_token_vocabulary "20" "x").1⟩

/-- C9: mechanically reversing the Markdown-V2 escaping applied to the
reply body recovers the original body text, for every body. -/
theorem escape_markdown_roundtrip (s : String) :
    unescape_markdown (escape_markdown s) = s := by
  unfold escape_markdown unescape_markdown
  rw [show (String.mk (escapeList s.toList)).toList = escapeList s.toList from rfl,
    unescapeList_escapeList]
  cases s
  rfl

/-- C10: a message supplying more raw tokens than the command's schema has
fields fails to bind, dispatch sends the single error reply, and the
handler is never reached. -/
theorem excess_tokens_bind_failure (i : CmdId) (ts : List String)
    (cb : ArgsVal → InvocationResult) (h : cmdNumFields i < ts.length) :
    cmdBind i ts = none ∧
    wrapped_callback (cmdArgsRepr i) (cmdBind i) cb ts =
      ⟨[.sent ("Wrong arguments of " ++ cmdArgsRepr i)], []⟩ := by
  have hb : cmdBind i ts = none := by
    cases i
    case echo =>
      show (EchoArgs.ofTokens ts).map ArgsVal.echoA = none
      rw [EchoArgs_ofTokens_long ts h]
      rfl
    case listC =>
      show (ListArgs.ofTokens ts).map ArgsVal.listA = none
      rw [ListArgs_ofTokens_long ts h]
      rfl
    case logs =>
      show (LogArgs.ofTokens ts).map ArgsVal.logA = none
      rw [LogArgs_ofTokens_long ts h]
      rfl
    case restart =>
      show (StartStopArgs.ofTokens ts).map ArgsVal.startStopA = none
      rw [StartStopArgs_ofTokens_long ts h]
      rfl
    case stop =>
      show (StartStopArgs.ofTokens ts).map ArgsVal.startStopA = none
      rw [StartStopArgs_ofTokens_long ts h]
      rfl
    case start =>
      show (StartStopArgs.ofTokens ts).map ArgsVal.startStopA = none
      rw [StartStopArgs_ofTokens_long ts h]
      rfl
  exact ⟨hb, wrapped_callback_of_bind_none (cmdArgsRepr i) (cmdBind i) cb ts hb⟩

/-- Witness for C10: three tokens after `/logs`, whose schema has two
fields. -/
theorem excess_tokens_bind_failure_witness :
    cmdNumFields CmdId.logs < (["a", "b", "c"] : List String).length ∧
    (cmdBind CmdId.logs ["a", "b", "c"] = none ∧
    wrapped_callback (cmdArgsRepr CmdId.logs) (cmdBind CmdId.logs)
        (fun _ => ⟨[], []⟩) ["a", "b", "c"] =
      ⟨[.sent ("Wrong arguments of " ++ cmdArgsRepr CmdId.logs)], []⟩) :=
  ⟨by decide, excess_tokens_bind_failure CmdId.logs ["a", "b", "c"]
    (fun _ => ⟨[], []⟩) (by decide)⟩

end TgDockerBot
